import Mathlib

/-!
Verification development for the tile-map core of the engo `common` package
(file `src/common/level.go`): orientation strategies, tileset slicing and
tile-layer assembly.  Go `float32` values are modelled as rationals, Go `int`
as `ℤ` (with `Int.tdiv`/`Int.tmod` for Go's truncated division and remainder),
and Go runtime panics as `none`/`Except.error` results.
-/

namespace Engo

/-- Decidable equality for `Except`, so concrete error results can be compared. -/
instance {ε α : Type} [DecidableEq ε] [DecidableEq α] : DecidableEq (Except ε α) := fun a b =>
  match a, b with
  | .ok a, .ok b => if h : a = b then isTrue (by rw [h]) else isFalse (by simp [h])
  | .error e, .error f => if h : e = f then isTrue (by rw [h]) else isFalse (by simp [h])
  | .ok _, .error _ => isFalse (by simp)
  | .error _, .ok _ => isFalse (by simp)

/-- Go conversion of a floating-point value to `int`: truncation toward zero. -/
def goTrunc (q : ℚ) : ℤ := if q < 0 then -⌊-q⌋ else ⌊q⌋

/-- A 2D coordinate (`engo.Point`); the `float32` components are modelled as `ℚ`. -/
structure Point where
  x : ℚ
  y : ℚ
deriving DecidableEq, Repr

/-- An axis-aligned bounding box (`engo.AABB`). -/
structure AABB where
  Min : Point
  Max : Point
deriving DecidableEq, Repr

/-- The static fields of `common.Level` that the coordinate strategies read
(`Orientation`, cell counts, origin offset and tile pixel size). -/
structure Level where
  Orientation : String
  width : ℤ
  height : ℤ
  Offset : Point
  TileWidth : ℤ
  TileHeight : ℤ
deriving DecidableEq, Repr

/-- The three strategy functions that `setupOrientation` installs on a `Level`:
`MapToPoint`, `PointToMap` and `MapMaxBounds`. -/
structure Strategy where
  MapToPoint : Point → Point
  PointToMap : Point → Point
  MapMaxBounds : Point

/-- Translation of `(*Level).setupOrientation` from `level.go`.  The Go
function mutates the receiver's three function fields and returns an error for
unknown orientation strings; here it returns the three functions (or the error)
explicitly.  `float32(lvl.TileWidth/2)` is integer division, hence `Int.tdiv`.
The in-place mutations of `m.X`/`p.X` before `m.Y`/`p.Y` is computed are kept
via `let` bindings. -/
def setupOrientation (lvl : Level) : Except String Strategy :=
  let tw : ℚ := (lvl.TileWidth : ℚ)
  let th : ℚ := (lvl.TileHeight : ℚ)
  let hw : ℚ := ((lvl.TileWidth.tdiv 2 : ℤ) : ℚ)
  let hh : ℚ := ((lvl.TileHeight.tdiv 2 : ℤ) : ℚ)
  if lvl.Orientation = "orthogonal" then
    .ok
      { MapToPoint := fun m => ⟨m.x * tw, m.y * th⟩
        PointToMap := fun p => ⟨p.x / tw, p.y / th⟩
        MapMaxBounds := ⟨((lvl.TileWidth * lvl.width : ℤ) : ℚ),
                         ((lvl.TileHeight * lvl.height : ℤ) : ℚ)⟩ }
  else if lvl.Orientation = "isometric" then
    .ok
      { MapToPoint := fun m =>
          let mx := (m.x - m.y) * hw
          ⟨mx, (mx + m.y) * hh⟩
        PointToMap := fun p =>
          let px := (p.x + p.y) / tw
          ⟨px, (p.y - px) / th⟩
        MapMaxBounds := ⟨((lvl.TileWidth * lvl.width : ℤ) : ℚ) + ((lvl.TileWidth.tdiv 2 : ℤ) : ℚ),
                         ((lvl.TileHeight.tdiv 2 * lvl.height : ℤ) : ℚ) +
                           ((lvl.TileHeight.tdiv 2 : ℤ) : ℚ)⟩ }
  else if lvl.Orientation = "staggered" then
    .ok
      { MapToPoint := fun m =>
          let staggerX : ℚ := if (goTrunc m.y).tmod 2 = 1 then hw else 0
          ⟨m.x * tw + staggerX, m.y * hh⟩
        PointToMap := fun p =>
          let Y := p.y
          let py := (p.y - p.x) / th
          let staggerX : ℚ := if (goTrunc py).tmod 2 = 1 then hw else 0
          ⟨(p.x + Y - staggerX) / tw, py⟩
        MapMaxBounds := ⟨((lvl.TileWidth * lvl.width : ℤ) : ℚ) + ((lvl.TileWidth.tdiv 2 : ℤ) : ℚ),
                         ((lvl.TileHeight.tdiv 2 * lvl.height : ℤ) : ℚ) +
                           ((lvl.TileHeight.tdiv 2 : ℤ) : ℚ)⟩ }
  else
    .error ("Level: Unsupported orientation " ++ lvl.Orientation)

/-- The fields of `common.TextureResource` used by the tileset builder: an
opaque texture handle and the sheet's pixel dimensions (`float32` in Go). -/
structure TextureResource where
  Texture : ℕ
  Width : ℚ
  Height : ℚ
deriving DecidableEq, Repr

/-- The fields of `common.Texture` used here: texture handle, pixel size and
the UV viewport into the shared sheet texture. -/
structure Texture where
  id : ℕ
  width : ℚ
  height : ℚ
  viewport : AABB
deriving DecidableEq, Repr

/-- The `common.tile` struct: an embedded `engo.Point` and an `*Texture`
image pointer (`none` models Go's `nil`).  The Go zero-value tile literal has
both fields at their defaults. -/
structure tile where
  Point : Point := ⟨0, 0⟩
  Image : Option Texture := none
deriving DecidableEq, Repr

/-- The `common.tilesheet` struct (properties omitted — unused by the core). -/
structure tilesheet where
  Image : TextureResource
  TileWidth : ℤ
  TileHeight : ℤ
  Firstgid : ℤ
deriving DecidableEq, Repr

/-- The `common.layer` struct: name, declared cell size and the flat
row-major `uint32` tile-id mapping. -/
structure layer where
  Name : String
  Width : ℤ
  Height : ℤ
  TileMapping : List ℕ
deriving DecidableEq, Repr

/-- The fields of `common.TileLayer` assembled by `createLevelTiles`. -/
structure TileLayer where
  Name : String
  Width : ℤ
  Height : ℤ
  Tiles : List tile
  Level : Level
deriving DecidableEq, Repr

/-- Collect a list of possibly-failing computations, failing (Go panic) as a
whole when any element fails. -/
def seqOpt {α : Type} : List (Option α) → Option (List α)
  | [] => some []
  | none :: _ => none
  | some a :: rest =>
      match seqOpt rest with
      | none => none
      | some as => some (a :: as)

/-- The tile value built by the inner loop of `createTileset` in `level.go`
at sheet-local index `i`, in the normal case that the integer divisor
`int(setWidth)` is nonzero: `x = float32(i % int(setWidth)) * tw`,
`y = float32(i / int(setWidth)) * th`, and the UV viewport is
`(x, y, x+tw, y+th)` scaled by the reciprocal sheet dimensions. -/
def sheetTileBody (sheet : tilesheet) (i : ℕ) : tile :=
  let tw : ℚ := (sheet.TileWidth : ℚ)
  let th : ℚ := (sheet.TileHeight : ℚ)
  let setWidth : ℚ := sheet.Image.Width / tw
  let x : ℚ := (((i : ℤ).tmod (goTrunc setWidth) : ℤ) : ℚ) * tw
  let y : ℚ := (((i : ℤ).tdiv (goTrunc setWidth) : ℤ) : ℚ) * th
  let invTexWidth : ℚ := 1 / sheet.Image.Width
  let invTexHeight : ℚ := 1 / sheet.Image.Height
  let u : ℚ := x * invTexWidth
  let v : ℚ := y * invTexHeight
  let u2 : ℚ := (x + tw) * invTexWidth
  let v2 : ℚ := (y + th) * invTexHeight
  { Point := ⟨0, 0⟩
    Image := some { id := sheet.Image.Texture, width := tw, height := th,
                    viewport := ⟨⟨u, v⟩, ⟨u2, v2⟩⟩ } }

/-- One iteration of the inner loop of `createTileset`: Go evaluates
`i % int(setWidth)`, an integer divide-by-zero runtime panic when
`int(setWidth) = 0` (modelled as `none`); otherwise the loop body's tile. -/
def sheetTileAt (sheet : tilesheet) (i : ℕ) : Option tile :=
  if goTrunc (sheet.Image.Width / (sheet.TileWidth : ℚ)) = 0 then none
  else some (sheetTileBody sheet i)

/-- Translation of `createTileset` from `level.go`: per sheet,
`setWidth = Image.Width / tw` and `setHeight = Image.Height / th` are
`float32` divisions, `totalTiles = int(setWidth * setHeight)` truncates the
float product, and the per-sheet tiles are concatenated in order.  The loop
body divides by the integer `int(setWidth)`, so when that is zero and the
loop runs at least once the whole call panics (modelled as `none`).  The
`lvl` argument is unused, as in the Go function. -/
def createTileset (lvl : Level) (sheets : List tilesheet) : Option (List tile) :=
  seqOpt (sheets.flatMap fun sheet =>
    let setWidth : ℚ := sheet.Image.Width / (sheet.TileWidth : ℚ)
    let setHeight : ℚ := sheet.Image.Height / (sheet.TileHeight : ℚ)
    let totalTiles : ℤ := goTrunc (setWidth * setHeight)
    (List.range totalTiles.toNat).map fun i => sheetTileAt sheet i)

/-- The effect of `(*Level).MapToPosition` once the orientation strategy is
resolved: transform the cell coordinate and add the level's origin offset;
an unsupported orientation yields the setup error. -/
def mapToPositionPure (lvl : Level) (mp : Point) : Except String Point :=
  match setupOrientation lvl with
  | .error e => .error e
  | .ok s =>
      let mpc := s.MapToPoint ⟨mp.x, mp.y⟩
      .ok ⟨mpc.x + lvl.Offset.x, mpc.y + lvl.Offset.y⟩

/-- The body of the per-cell loop of `createLevelTiles` in `level.go` at cell
`(x, i)`: read `mapping[idx]` for `idx = x + i*width` (a Go panic when out of
range is modelled as `none`), subtract 1, and either leave the zero-value tile
(blank cell) or resolve the atlas tile `ts[tileIdx]` (panic modelled as
`none`), the screen position (the discarded `MapToPosition` error leads to a
nil dereference, also `none`) and the bottom-alignment compensation
`tp.Y -= t.Image.Height() - float32(lvl.TileHeight)`. -/
def makeCell (lvl : Level) (ts : List tile) (mapping : List ℕ) (x i : ℕ) : Option tile :=
  let idx := x + i * lvl.width.toNat
  match mapping[idx]? with
  | none => none
  | some mval =>
      let tileIdx : ℤ := (mval : ℤ) - 1
      if 0 ≤ tileIdx then
        match ts[tileIdx.toNat]? with
        | none => none
        | some atile =>
            match atile.Image, mapToPositionPure lvl ⟨(x : ℚ), (i : ℚ)⟩ with
            | some img, .ok tp =>
                some { Point := ⟨tp.x, tp.y - (img.height - (lvl.TileHeight : ℚ))⟩,
                       Image := some img }
            | _, _ => none
      else
        some {}

/-- The per-cell results of one layer of `createLevelTiles`, in row-major
order: rows `i` below `lvl.height` (outer loop), columns `x` below
`lvl.width` (inner loop). -/
def cellOpts (lvl : Level) (ts : List tile) (mapping : List ℕ) : List (Option tile) :=
  (List.range lvl.height.toNat).flatMap fun i =>
    (List.range lvl.width.toNat).map fun x => makeCell lvl ts mapping x i

/-- Translation of `createLevelTiles` from `level.go`: one `TileLayer` per
input layer, with the tile grid iterated over the LEVEL's `width`/`height`
cell counts (not the layer's declared ones); the layer's name and declared
size are copied and the level back-reference stored.  A Go panic anywhere
(out-of-range mapping index or tile id, nil dereference) aborts the whole
call, modelled as `none`. -/
def createLevelTiles (lvl : Level) (layers : List layer) (ts : List tile) :
    Option (List TileLayer) :=
  seqOpt (layers.map fun lyr =>
    match seqOpt (cellOpts lvl ts lyr.TileMapping) with
    | none => none
    | some tilemap =>
        some { Name := lyr.Name, Width := lyr.Width, Height := lyr.Height,
               Tiles := tilemap, Level := lvl })

/-- The mutable strategy slots of a `common.Level`: the Go struct stores the
three function pointers, `nil` until `setupOrientation` first succeeds. -/
structure LevelState where
  lvl : Level
  mapToPointF : Option (Point → Point)
  pointToMapF : Option (Point → Point)
  mapMaxBoundsF : Option Point

/-- Translation of `(*Level).MapToPosition`: lazily resolve the orientation
strategy when the `MapToPoint` slot is nil (an error leaves the state
untouched), then transform and add the origin offset.  The returned state
carries the Go method's receiver mutation. -/
def MapToPosition (ls : LevelState) (mp : Point) : Except String Point × LevelState :=
  match ls.mapToPointF with
  | some f =>
      let mpc := f ⟨mp.x, mp.y⟩
      (.ok ⟨mpc.x + ls.lvl.Offset.x, mpc.y + ls.lvl.Offset.y⟩, ls)
  | none =>
      match setupOrientation ls.lvl with
      | .error e => (.error e, ls)
      | .ok s =>
          let ls2 : LevelState :=
            { ls with mapToPointF := some s.MapToPoint, pointToMapF := some s.PointToMap,
                      mapMaxBoundsF := some s.MapMaxBounds }
          let mpc := s.MapToPoint ⟨mp.x, mp.y⟩
          (.ok ⟨mpc.x + ls.lvl.Offset.x, mpc.y + ls.lvl.Offset.y⟩, ls2)

/-- Translation of `(*Level).PositionToMap`: lazily resolve the orientation
strategy when the `PointToMap` slot is nil, subtract the origin offset and
apply the inverse transform. -/
def PositionToMap (ls : LevelState) (p : Point) : Except String Point × LevelState :=
  match ls.pointToMapF with
  | some f =>
      (.ok (f ⟨p.x - ls.lvl.Offset.x, p.y - ls.lvl.Offset.y⟩), ls)
  | none =>
      match setupOrientation ls.lvl with
      | .error e => (.error e, ls)
      | .ok s =>
          let ls2 : LevelState :=
            { ls with mapToPointF := some s.MapToPoint, pointToMapF := some s.PointToMap,
                      mapMaxBoundsF := some s.MapMaxBounds }
          (.ok (s.PointToMap ⟨p.x - ls.lvl.Offset.x, p.y - ls.lvl.Offset.y⟩), ls2)

/-- Orthogonal demonstration level: `tileWidth=32, tileHeight=32, width=10, height=5`. -/
def lvlOrtho : Level := ⟨"orthogonal", 10, 5, ⟨0, 0⟩, 32, 32⟩

/-- Isometric demonstration level with 32x32 tiles. -/
def lvlIso : Level := ⟨"isometric", 10, 5, ⟨0, 0⟩, 32, 32⟩

/-- Staggered demonstration level with 32x32 tiles. -/
def lvlStag : Level := ⟨"staggered", 10, 5, ⟨0, 0⟩, 32, 32⟩

/-- A 1x1 orthogonal level with 32x32 tiles and zero offset. -/
def lvlOrthoSmall : Level := ⟨"orthogonal", 1, 1, ⟨0, 0⟩, 32, 32⟩

/-- Two-cell level used to instantiate the amended C8 at a different input
than the counterexample. -/
def lvlWide : Level := ⟨"orthogonal", 2, 1, ⟨0, 0⟩, 32, 32⟩

/-- Demonstration 2x1 level for the C10 witness. -/
def lvlDemo : Level := ⟨"orthogonal", 2, 1, ⟨0, 0⟩, 32, 32⟩

/-- Sheet of pixel size 128x64 with 32x32 tiles (the spec's tileset example). -/
def sheet128 : tilesheet := ⟨⟨7, 128, 64⟩, 32, 32, 1⟩

/-- Sheet of pixel size 48x48 with 32x32 tiles: the dimensions are not
multiples of the tile size. -/
def sheet48 : tilesheet := ⟨⟨7, 48, 48⟩, 32, 32, 1⟩

/-- Sheet of pixel size 16x320 with 32x32 tiles: narrower than one tile
(`int(setWidth) = 0`) yet with truncated tile count `int(0.5·10) = 5`, so the
Go loop body divides by the integer zero and panics. -/
def sheet16 : tilesheet := ⟨⟨7, 16, 320⟩, 32, 32, 1⟩

/-- Atlas texture of pixel height 48 (taller than a 32-pixel grid tile). -/
def tex48 : Texture := ⟨7, 32, 48, ⟨⟨0, 0⟩, ⟨1, 1⟩⟩⟩

/-- Tile carrying the oversize 48-pixel-tall atlas texture. -/
def tile48 : tile := ⟨⟨0, 0⟩, some tex48⟩

/-- Layer whose single mapping entry `2` references tile index `1`, beyond a
one-tile tileset. -/
def badLayer : layer := ⟨"bad", 1, 1, [2]⟩

/-- Layer whose second mapping entry `5` references tile index `4`, beyond a
one-tile tileset. -/
def badLayerWide : layer := ⟨"bad2", 2, 1, [1, 5]⟩

/-- Demonstration layer for the C10 witness whose declared size (99x99)
deliberately disagrees with the level's 2x1 grid, and whose second cell is
blank. -/
def demoLayer : layer := ⟨"demo", 99, 99, [1, 0]⟩

/-- The tile layer that `createLevelTiles` assembles from `demoLayer`. -/
def demoTL : TileLayer :=
  ⟨"demo", 99, 99, [⟨⟨0, -16⟩, some tex48⟩, ⟨⟨0, 0⟩, none⟩], lvlDemo⟩

/-- State of a fresh Level carrying the unsupported orientation string
"hexagonal", with all three strategy slots unset. -/
def lsHex : LevelState := ⟨⟨"hexagonal", 1, 1, ⟨0, 0⟩, 32, 32⟩, none, none, none⟩

/-- Go `%` (truncated remainder) of a nonpositive dividend is nonpositive. -/
theorem tmod_nonpos_of_nonpos (a b : ℤ) (ha : a ≤ 0) : a.tmod b ≤ 0 := by
  cases a with
  | ofNat m =>
      have hm : m = 0 := Nat.le_zero.1 (Int.ofNat_le.1 ha)
      subst hm
      simp
  | negSucc m =>
      cases b with
      | ofNat n =>
          simp only [Int.tmod]
          exact neg_nonpos.2 (Int.natCast_nonneg _)
      | negSucc n =>
          simp only [Int.tmod]
          exact neg_nonpos.2 (Int.natCast_nonneg _)

/-- On nonnegative rationals Go truncation agrees with the floor. -/
theorem goTrunc_eq_floor {q : ℚ} (h : 0 ≤ q) : goTrunc q = ⌊q⌋ := by
  rw [goTrunc, if_neg (not_lt.2 h)]

/-- On negative rationals Go truncation is nonpositive. -/
theorem goTrunc_nonpos {q : ℚ} (h : q < 0) : goTrunc q ≤ 0 := by
  rw [goTrunc, if_pos h]
  have : (0 : ℤ) ≤ ⌊-q⌋ := Int.floor_nonneg.2 (by linarith)
  omega

/-- The staggered row-parity test `int(y) % 2 == 1` of the Go code holds
exactly when `y` is nonnegative and its floor is odd: for negative `y` the
truncated remainder is never `1`. -/
theorem stag_cond_iff (y : ℚ) : ((goTrunc y).tmod 2 = 1) ↔ (0 ≤ y ∧ ⌊y⌋ % 2 = 1) := by
  constructor
  · intro h
    by_cases hy : 0 ≤ y
    · refine ⟨hy, ?_⟩
      rw [goTrunc_eq_floor hy] at h
      rw [← Int.tmod_eq_emod (Int.floor_nonneg.2 hy) (by norm_num)]
      exact h
    · exfalso
      have h1 : goTrunc y ≤ 0 := goTrunc_nonpos (lt_of_not_ge hy)
      have h2 := tmod_nonpos_of_nonpos (goTrunc y) 2 h1
      omega
  · rintro ⟨hy, hodd⟩
    rw [goTrunc_eq_floor hy, Int.tmod_eq_emod (Int.floor_nonneg.2 hy) (by norm_num)]
    exact hodd

/-- A nested row/column loop appending one element per cell produces a list
of length `w * h`. -/
theorem gridLength {α : Type} (w h : ℕ) (f : ℕ → ℕ → α) :
    ((List.range h).flatMap fun i => (List.range w).map fun x => f x i).length = w * h := by
  induction h with
  | zero => simp
  | succ n ih =>
      rw [List.range_succ, List.flatMap_append]
      simp only [List.length_append, ih, List.flatMap_cons, List.flatMap_nil,
        List.append_nil, List.length_map, List.length_range]
      rw [Nat.mul_succ]

/-- In a nested row/column loop the element for cell `(x, i)` sits at the
row-major index `x + i * w`. -/
theorem gridGet {α : Type} (w h : ℕ) (f : ℕ → ℕ → α) (x i : ℕ)
    (hx : x < w) (hi : i < h) :
    ((List.range h).flatMap fun i => (List.range w).map fun x => f x i)[x + i * w]? =
      some (f x i) := by
  induction h with
  | zero => omega
  | succ n ih =>
      rw [List.range_succ, List.flatMap_append]
      by_cases hin : i < n
      · rw [List.getElem?_append_left, ih hin]
        rw [gridLength]
        have h2 : (i + 1) * w ≤ n * w := Nat.mul_le_mul_right w hin
        rw [Nat.succ_mul] at h2
        have h3 : x + i * w < i * w + w := by
          rw [Nat.add_comm x (i * w)]
          exact Nat.add_lt_add_left hx (i * w)
        calc x + i * w < i * w + w := h3
          _ ≤ n * w := h2
          _ = w * n := Nat.mul_comm n w
      · have hieq : i = n := by omega
        subst hieq
        rw [List.getElem?_append_right]
        · rw [gridLength, List.flatMap_cons, List.flatMap_nil, List.append_nil,
            Nat.mul_comm w i, Nat.add_sub_cancel, List.getElem?_map,
            List.getElem?_range hx, Option.map_some']
        · rw [gridLength, Nat.mul_comm w i]
          exact Nat.le_add_left (i * w) x

/-- The collected list fails as soon as one element fails. -/
theorem seqOpt_eq_none {α : Type} {l : List (Option α)} (h : none ∈ l) :
    seqOpt l = none := by
  induction l with
  | nil => cases h
  | cons o rest ih =>
      cases o with
      | none => rfl
      | some a =>
          rcases List.mem_cons.1 h with h1 | h2
          · exact absurd h1 (by simp)
          · simp only [seqOpt, ih h2]

/-- Collecting a list whose elements all succeed yields exactly the list of
their values. -/
theorem seqOpt_map_some {α β : Type} (l : List β) (f : β → α) :
    seqOpt (l.map fun b => some (f b)) = some (l.map f) := by
  induction l with
  | nil => rfl
  | cons b rest ih => simp only [List.map_cons, seqOpt, ih]

/-- A successful `seqOpt` keeps the length and, position by position, wraps
exactly the collected elements. -/
theorem seqOpt_some_get {α : Type} {l : List (Option α)} {r : List α}
    (h : seqOpt l = some r) :
    r.length = l.length ∧ ∀ k : ℕ, l[k]? = r[k]?.map some := by
  induction l generalizing r with
  | nil =>
      simp only [seqOpt, Option.some.injEq] at h
      subst h
      exact ⟨rfl, fun k => by simp⟩
  | cons o rest ih =>
      cases o with
      | none => simp [seqOpt] at h
      | some a =>
          cases hrest : seqOpt rest with
          | none => simp [seqOpt, hrest] at h
          | some as =>
              simp only [seqOpt, hrest, Option.some.injEq] at h
              subst h
              obtain ⟨hlen, hget⟩ := ih hrest
              refine ⟨by simp [hlen], fun k => ?_⟩
              cases k with
              | zero => simp
              | succ n => simpa using hget n

/-- The per-layer cell list has exactly `width * height` entries. -/
theorem cellOpts_length (lvl : Level) (ts : List tile) (mapping : List ℕ) :
    (cellOpts lvl ts mapping).length = lvl.width.toNat * lvl.height.toNat := by
  unfold cellOpts
  exact gridLength _ _ _

/-- The per-layer cell list holds the cell `(x, i)` result at row-major
index `x + i * width`. -/
theorem cellOpts_get (lvl : Level) (ts : List tile) (mapping : List ℕ)
    (x i : ℕ) (hx : x < lvl.width.toNat) (hi : i < lvl.height.toNat) :
    (cellOpts lvl ts mapping)[x + i * lvl.width.toNat]? =
      some (makeCell lvl ts mapping x i) := by
  unfold cellOpts
  exact gridGet _ _ _ _ _ hx hi

/-- A successful lazy setup in `MapToPosition`: the strategy is memoized into
the three slots and the transformed, offset-shifted point is returned. -/
theorem MapToPosition_ok (ls : LevelState) (p : Point) (s : Strategy)
    (hmp : ls.mapToPointF = none) (hs : setupOrientation ls.lvl = .ok s) :
    MapToPosition ls p =
      (.ok ⟨(s.MapToPoint ⟨p.x, p.y⟩).x + ls.lvl.Offset.x,
            (s.MapToPoint ⟨p.x, p.y⟩).y + ls.lvl.Offset.y⟩,
       { ls with mapToPointF := some s.MapToPoint, pointToMapF := some s.PointToMap,
                 mapMaxBoundsF := some s.MapMaxBounds }) := by
  simp only [MapToPosition, hmp, hs]

/-- A successful lazy setup in `PositionToMap`: the strategy is memoized into
the three slots and the offset-shifted, inverse-transformed point returned. -/
theorem PositionToMap_ok (ls : LevelState) (p : Point) (s : Strategy)
    (hpm : ls.pointToMapF = none) (hs : setupOrientation ls.lvl = .ok s) :
    PositionToMap ls p =
      (.ok (s.PointToMap ⟨p.x - ls.lvl.Offset.x, p.y - ls.lvl.Offset.y⟩),
       { ls with mapToPointF := some s.MapToPoint, pointToMapF := some s.PointToMap,
                 mapMaxBoundsF := some s.MapMaxBounds }) := by
  simp only [PositionToMap, hpm, hs]

/-- C1: for every Level with orientation "orthogonal" and positive tile
dimensions, the resolved strategy satisfies `mapToPoint(x,y) = (x·tw, y·th)`,
`pointToMap(x,y) = (x/tw, y/th)` and `maxBounds() = (tw·W, th·H)`; in
particular with `tw=th=32, W=10, H=5` the bounds are `(320, 160)`. -/
theorem C1_orthogonal_strategy (lvl : Level) (ho : lvl.Orientation = "orthogonal")
    (htw : 0 < lvl.TileWidth) (hth : 0 < lvl.TileHeight) :
    ∃ s, setupOrientation lvl = .ok s ∧
      (∀ p, s.MapToPoint p = ⟨p.x * (lvl.TileWidth : ℚ), p.y * (lvl.TileHeight : ℚ)⟩) ∧
      (∀ p, s.PointToMap p = ⟨p.x / (lvl.TileWidth : ℚ), p.y / (lvl.TileHeight : ℚ)⟩) ∧
      s.MapMaxBounds = ⟨(lvl.TileWidth : ℚ) * (lvl.width : ℚ),
                        (lvl.TileHeight : ℚ) * (lvl.height : ℚ)⟩ ∧
      (lvl.TileWidth = 32 → lvl.TileHeight = 32 → lvl.width = 10 → lvl.height = 5 →
        s.MapMaxBounds = ⟨320, 160⟩) := by
  unfold setupOrientation
  rw [if_pos ho]
  refine ⟨_, rfl, fun p => rfl, fun p => rfl, ?_, ?_⟩
  · simp [Int.cast_mul]
  · intro h1 h2 h3 h4
    rw [h1, h2, h3, h4]
    norm_num

/-- Witness for C1 at the concrete level `lvlOrtho`. -/
theorem C1_orthogonal_strategy_witness :
    ((setupOrientation lvlOrtho).map Strategy.MapMaxBounds) = .ok ⟨320, 160⟩ := by
  obtain ⟨s, hs, _, _, _, hconc⟩ :=
    C1_orthogonal_strategy lvlOrtho rfl (by norm_num [lvlOrtho]) (by norm_num [lvlOrtho])
  rw [hs, Except.map, hconc rfl rfl rfl rfl]

/-- C2: for every Level with orientation "isometric" and positive tile
dimensions, `mapToPoint` computes the new `x` first and then uses the already
mutated `x` for the new `y`: `mapToPoint(x,y) = (u, (u + y)·hh)` with
`u = (x−y)·hw`, where `hw`/`hh` are the integer half tile width/height. -/
theorem C2_isometric_mutated_x (lvl : Level) (ho : lvl.Orientation = "isometric")
    (htw : 0 < lvl.TileWidth) (hth : 0 < lvl.TileHeight) :
    ∃ s, setupOrientation lvl = .ok s ∧ ∀ m,
      s.MapToPoint m =
        ⟨(m.x - m.y) * ((lvl.TileWidth.tdiv 2 : ℤ) : ℚ),
         ((m.x - m.y) * ((lvl.TileWidth.tdiv 2 : ℤ) : ℚ) + m.y) *
           ((lvl.TileHeight.tdiv 2 : ℤ) : ℚ)⟩ := by
  unfold setupOrientation
  rw [ho]
  norm_num
  exact ⟨_, rfl, fun m => rfl⟩

/-- Witness for C2 at the concrete level `lvlIso` and cell `(1,0)`:
`u = (1−0)·16 = 16` and the new `y = (16+0)·16 = 256`. -/
theorem C2_isometric_mutated_x_witness :
    ((setupOrientation lvlIso).map fun s => s.MapToPoint ⟨1, 0⟩) = .ok ⟨16, 256⟩ := by
  obtain ⟨s, hs, hm⟩ :=
    C2_isometric_mutated_x lvlIso rfl (by norm_num [lvlIso]) (by norm_num [lvlIso])
  rw [hs, Except.map, hm ⟨1, 0⟩]
  have h16 : Int.tdiv 32 2 = 16 := by decide
  norm_num [lvlIso, h16]

/-- C3 counterexample: at cell `(0, -1)` of a staggered 32x32 level the floor
of the row is odd, so the claim predicts `x = 0·32 + 16 = 16`, but the code
computes `int(-1) % 2 = -1` (Go truncated remainder) and applies no stagger:
the resulting point is `(0, -16)`. -/
theorem C3_staggered_counterexample :
    ⌊(-1 : ℚ)⌋ % 2 = 1 ∧
    ((setupOrientation lvlStag).map fun s => s.MapToPoint ⟨0, -1⟩) = .ok ⟨0, -16⟩ ∧
    (0 : ℚ) ≠ 0 * 32 + 16 := by
  refine ⟨by norm_num, ?_, by norm_num⟩
  have hfalse : ¬ ((goTrunc (-1 : ℚ)).tmod 2 = 1) := by
    rw [stag_cond_iff]
    norm_num
  have h16 : Int.tdiv 32 2 = 16 := by decide
  simp [setupOrientation, lvlStag, Except.map, hfalse, h16]

/-- C3 (amended): for a staggered level with positive tile dimensions,
`mapToPoint(x,y) = (x·tw + hw, y·hh)` when `y` is nonnegative and `⌊y⌋` is odd,
and `(x·tw, y·hh)` otherwise — in particular negative rows never receive the
half-width stagger, because Go's `int(y) % 2` is never `1` for negative `y`. -/
theorem C3_staggered_mapToPoint (lvl : Level) (ho : lvl.Orientation = "staggered")
    (htw : 0 < lvl.TileWidth) (hth : 0 < lvl.TileHeight) :
    ∃ s, setupOrientation lvl = .ok s ∧ ∀ m,
      s.MapToPoint m =
        if 0 ≤ m.y ∧ ⌊m.y⌋ % 2 = 1 then
          ⟨m.x * (lvl.TileWidth : ℚ) + ((lvl.TileWidth.tdiv 2 : ℤ) : ℚ),
           m.y * ((lvl.TileHeight.tdiv 2 : ℤ) : ℚ)⟩
        else
          ⟨m.x * (lvl.TileWidth : ℚ), m.y * ((lvl.TileHeight.tdiv 2 : ℤ) : ℚ)⟩ := by
  unfold setupOrientation
  rw [ho]
  norm_num
  refine ⟨_, rfl, fun m => ?_⟩
  by_cases hc : (goTrunc m.y).tmod 2 = 1
  · rw [if_pos ((stag_cond_iff m.y).1 hc)]
    simp only [if_pos hc]
  · rw [if_neg (fun h => hc ((stag_cond_iff m.y).2 h))]
    simp only [if_neg hc]
    rw [add_zero]

/-- Witness for the amended C3 at `lvlStag` and cell `(2, 3)` (odd row):
the point is `(2·32 + 16, 3·16) = (80, 48)`. -/
theorem C3_staggered_mapToPoint_witness :
    ((setupOrientation lvlStag).map fun s => s.MapToPoint ⟨2, 3⟩) = .ok ⟨80, 48⟩ := by
  obtain ⟨s, hs, hm⟩ :=
    C3_staggered_mapToPoint lvlStag rfl (by norm_num [lvlStag]) (by norm_num [lvlStag])
  rw [hs, Except.map, hm ⟨2, 3⟩]
  have h16 : Int.tdiv 32 2 = 16 := by decide
  norm_num [lvlStag, h16]

/-- C4 counterexample: for the isometric 32x32 level, the round trip
`pointToMap(mapToPoint(1,0))` produces `(8.5, 7.734375)` rather than `(1,0)` —
not within any floating-point tolerance. -/
theorem C4_roundtrip_counterexample :
    ((setupOrientation lvlIso).map fun s => s.PointToMap (s.MapToPoint ⟨1, 0⟩)) =
        .ok ⟨17/2, 495/64⟩ ∧
    ((⟨17/2, 495/64⟩ : Point) ≠ ⟨1, 0⟩) := by
  constructor
  · have h16 : Int.tdiv 32 2 = 16 := by decide
    simp [setupOrientation, lvlIso, Except.map, h16]
    norm_num
  · intro h
    have hx := congrArg Point.x h
    norm_num at hx

/-- C4 (amended): the round trip `pointToMap(mapToPoint(c)) = c` holds exactly
for every orthogonal level with positive tile dimensions; for isometric levels
it fails (see the counterexample). -/
theorem C4_roundtrip_orthogonal (lvl : Level) (ho : lvl.Orientation = "orthogonal")
    (htw : 0 < lvl.TileWidth) (hth : 0 < lvl.TileHeight) :
    ∃ s, setupOrientation lvl = .ok s ∧ ∀ c, s.PointToMap (s.MapToPoint c) = c := by
  unfold setupOrientation
  rw [if_pos ho]
  refine ⟨_, rfl, fun c => ?_⟩
  have hw0 : ((lvl.TileWidth : ℚ)) ≠ 0 := Int.cast_ne_zero.2 htw.ne'
  have hh0 : ((lvl.TileHeight : ℚ)) ≠ 0 := Int.cast_ne_zero.2 hth.ne'
  obtain ⟨cx, cy⟩ := c
  simp only [Point.mk.injEq]
  exact ⟨mul_div_cancel_right₀ cx hw0, mul_div_cancel_right₀ cy hh0⟩

/-- Witness for the amended C4 at `lvlOrtho` and cell `(3, 5)`. -/
theorem C4_roundtrip_orthogonal_witness :
    ((setupOrientation lvlOrtho).map fun s => s.PointToMap (s.MapToPoint ⟨3, 5⟩)) =
      .ok ⟨3, 5⟩ := by
  obtain ⟨s, hs, hr⟩ :=
    C4_roundtrip_orthogonal lvlOrtho rfl (by norm_num [lvlOrtho]) (by norm_num [lvlOrtho])
  rw [hs, Except.map, hr ⟨3, 5⟩]

/-- C5 counterexample: on a 48x48 sheet with 32x32 tiles the code computes
`int((48/32)·(48/32)) = int(2.25) = 2` tiles, while the claimed count
`floor(48/32)·floor(48/32)` equals `1`. -/
theorem C5_count_counterexample :
    (createTileset lvlOrtho [sheet48]).map List.length = some 2 ∧
    ⌊(48 : ℚ) / 32⌋ * ⌊(48 : ℚ) / 32⌋ = 1 ∧ (2 : ℤ) ≠ 1 := by
  refine ⟨?_, by norm_num, by norm_num⟩
  have hne : ¬ (goTrunc (sheet48.Image.Width / (sheet48.TileWidth : ℚ)) = 0) := by
    norm_num [goTrunc, sheet48]
  have hfun : (fun i => sheetTileAt sheet48 i) =
      (fun i => some (sheetTileBody sheet48 i)) := by
    funext i
    simp only [sheetTileAt, if_neg hne]
  simp only [createTileset, List.flatMap_cons, List.flatMap_nil, List.append_nil]
  rw [hfun, seqOpt_map_some, Option.map_some', List.length_map, List.length_range]
  norm_num [sheet48, goTrunc]
  decide

/-- C5 (amended): when the sheet is at least one tile wide (`⌊W/tw⌋ ≥ 1`), a
sheet yields `trunc((W/tw)·(H/th))` tiles (Go truncates the product of the
float ratios, which agrees with `floor(W/tw)·floor(H/th)` exactly when the
sheet dimensions are multiples of the tile size); tile `i` lies at column
`i mod setWidth`, row `i div setWidth` for `setWidth = ⌊W/tw⌋`, with UV
rectangle `(x/W, y/H, (x+tw)/W, (y+th)/H)` for pixel origin
`(x,y) = (col·tw, row·th)`.  When `⌊W/tw⌋ = 0` but the truncated tile count
is still positive, the Go loop body divides by the integer zero
`int(setWidth)` and the whole call panics, producing no tiles at all. -/
theorem C5_tileset_layout (lvl : Level) (sheet : tilesheet)
    (htw : 0 < sheet.TileWidth) (hth : 0 < sheet.TileHeight)
    (hW : 0 < sheet.Image.Width) (hH : 0 < sheet.Image.Height) :
    (0 < ⌊sheet.Image.Width / (sheet.TileWidth : ℚ)⌋ →
      ∃ ts, createTileset lvl [sheet] = some ts ∧
        ts.length = (goTrunc ((sheet.Image.Width / (sheet.TileWidth : ℚ)) *
          (sheet.Image.Height / (sheet.TileHeight : ℚ)))).toNat ∧
        (∀ i : ℕ, i < ts.length →
          ts[i]? = some
            { Point := ⟨0, 0⟩
              Image := some
                { id := sheet.Image.Texture
                  width := (sheet.TileWidth : ℚ)
                  height := (sheet.TileHeight : ℚ)
                  viewport :=
                    ⟨⟨(((i : ℤ).tmod ⌊sheet.Image.Width / (sheet.TileWidth : ℚ)⌋ : ℤ) : ℚ) *
                        (sheet.TileWidth : ℚ) / sheet.Image.Width,
                      (((i : ℤ).tdiv ⌊sheet.Image.Width / (sheet.TileWidth : ℚ)⌋ : ℤ) : ℚ) *
                        (sheet.TileHeight : ℚ) / sheet.Image.Height⟩,
                     ⟨((((i : ℤ).tmod ⌊sheet.Image.Width / (sheet.TileWidth : ℚ)⌋ : ℤ) : ℚ) *
                        (sheet.TileWidth : ℚ) + (sheet.TileWidth : ℚ)) / sheet.Image.Width,
                      ((((i : ℤ).tdiv ⌊sheet.Image.Width / (sheet.TileWidth : ℚ)⌋ : ℤ) : ℚ) *
                        (sheet.TileHeight : ℚ) + (sheet.TileHeight : ℚ)) /
                        sheet.Image.Height⟩⟩ } }) ∧
        (∀ a b : ℕ, sheet.Image.Width = (sheet.TileWidth : ℚ) * (a : ℚ) →
          sheet.Image.Height = (sheet.TileHeight : ℚ) * (b : ℚ) →
          ts.length = a * b)) ∧
    (⌊sheet.Image.Width / (sheet.TileWidth : ℚ)⌋ = 0 →
      0 < goTrunc ((sheet.Image.Width / (sheet.TileWidth : ℚ)) *
        (sheet.Image.Height / (sheet.TileHeight : ℚ))) →
      createTileset lvl [sheet] = none) := by
  have htw0 : ((sheet.TileWidth : ℚ)) ≠ 0 := Int.cast_ne_zero.2 htw.ne'
  have hth0 : ((sheet.TileHeight : ℚ)) ≠ 0 := Int.cast_ne_zero.2 hth.ne'
  have hq : (0 : ℚ) ≤ sheet.Image.Width / (sheet.TileWidth : ℚ) :=
    div_nonneg hW.le (Int.cast_nonneg.2 htw.le)
  constructor
  · intro hsw
    have hne : ¬ (goTrunc (sheet.Image.Width / (sheet.TileWidth : ℚ)) = 0) := by
      rw [goTrunc_eq_floor hq]
      omega
    have hfun : (fun i => sheetTileAt sheet i) =
        (fun i => some (sheetTileBody sheet i)) := by
      funext i
      simp only [sheetTileAt, if_neg hne]
    have hper : createTileset lvl [sheet] =
        some ((List.range (goTrunc ((sheet.Image.Width / (sheet.TileWidth : ℚ)) *
          (sheet.Image.Height / (sheet.TileHeight : ℚ)))).toNat).map
            (sheetTileBody sheet)) := by
      unfold createTileset
      simp only [List.flatMap_cons, List.flatMap_nil, List.append_nil]
      rw [hfun, seqOpt_map_some]
    refine ⟨_, hper, ?_, fun i hi => ?_, fun a b ha hb => ?_⟩
    · rw [List.length_map, List.length_range]
    · rw [List.length_map, List.length_range] at hi
      rw [List.getElem?_map, List.getElem?_range hi, Option.map_some']
      simp only [sheetTileBody, goTrunc_eq_floor hq, mul_one_div]
    · rw [List.length_map, List.length_range]
      have hab : (a : ℚ) * (b : ℚ) = ((a * b : ℕ) : ℚ) := by push_cast; ring
      rw [ha, hb, mul_div_cancel_left₀ _ htw0, mul_div_cancel_left₀ _ hth0, hab,
        goTrunc_eq_floor (by positivity), Int.floor_natCast, Int.toNat_natCast]
  · intro hsw0 htot
    have hzero : goTrunc (sheet.Image.Width / (sheet.TileWidth : ℚ)) = 0 := by
      rw [goTrunc_eq_floor hq]
      exact hsw0
    unfold createTileset
    simp only [List.flatMap_cons, List.flatMap_nil, List.append_nil]
    apply seqOpt_eq_none
    refine List.mem_map.2 ⟨0, List.mem_range.2 ?_, ?_⟩
    · omega
    · simp only [sheetTileAt, if_pos hzero]

/-- Witness for the amended C5: on the 128x64 sheet exactly 8 tiles are
produced, tile 0 with UV box `((0,0),(1/4,1/2))` and tile 4 with UV box
`((0,1/2),(1/4,1))`; on the 16x320 sheet the divide-by-zero panic aborts the
call and no tiles are produced. -/
theorem C5_tileset_layout_witness :
    (createTileset lvlOrtho [sheet128]).map List.length = some 8 ∧
    (createTileset lvlOrtho [sheet128]).map (fun ts => ts[0]?) =
      some (some ⟨⟨0, 0⟩, some ⟨7, 32, 32, ⟨⟨0, 0⟩, ⟨1/4, 1/2⟩⟩⟩⟩) ∧
    (createTileset lvlOrtho [sheet128]).map (fun ts => ts[4]?) =
      some (some ⟨⟨0, 0⟩, some ⟨7, 32, 32, ⟨⟨0, 1/2⟩, ⟨1/4, 1⟩⟩⟩⟩) ∧
    createTileset lvlOrtho [sheet16] = none := by
  obtain ⟨hpos, _⟩ := C5_tileset_layout lvlOrtho sheet128
    (by norm_num [sheet128]) (by norm_num [sheet128]) (by norm_num [sheet128])
    (by norm_num [sheet128])
  obtain ⟨ts, hcreate, hlen, htile, hmul⟩ := hpos (by norm_num [sheet128])
  have hlen8 : ts.length = 8 :=
    (hmul 4 2 (by norm_num [sheet128]) (by norm_num [sheet128])).trans (by norm_num)
  have e0m : Int.tmod 0 4 = 0 := by decide
  have e0d : Int.tdiv 0 4 = 0 := by decide
  have e4m : Int.tmod 4 4 = 0 := by decide
  have e4d : Int.tdiv 4 4 = 1 := by decide
  have hpanic : createTileset lvlOrtho [sheet16] = none :=
    (C5_tileset_layout lvlOrtho sheet16 (by norm_num [sheet16]) (by norm_num [sheet16])
      (by norm_num [sheet16]) (by norm_num [sheet16])).2
      (by norm_num [sheet16]) (by norm_num [sheet16, goTrunc])
  refine ⟨?_, ?_, ?_, hpanic⟩
  · rw [hcreate, Option.map_some', hlen8]
  · rw [hcreate, Option.map_some', htile 0 (by rw [hlen8]; norm_num)]
    norm_num [sheet128, e0m, e0d]
  · rw [hcreate, Option.map_some', htile 4 (by rw [hlen8]; norm_num)]
    norm_num [sheet128, e4m, e4d]

/-- C6: a non-blank cell's stored position is the orientation-resolved screen
point of the cell plus the level's origin offset, minus the bottom-alignment
compensation `atlasTileHeight − level.tileHeight` on `y`, and the cell stores
the atlas image reference. -/
theorem C6_bottom_alignment (lvl : Level) (ts : List tile) (mapping : List ℕ)
    (x i : ℕ) (s : Strategy) (hs : setupOrientation lvl = .ok s)
    (m : ℕ) (hm : mapping[x + i * lvl.width.toNat]? = some (m + 1))
    (atile : tile) (ht : ts[m]? = some atile)
    (img : Texture) (himg : atile.Image = some img) :
    makeCell lvl ts mapping x i = some
      { Point := ⟨(s.MapToPoint ⟨(x : ℚ), (i : ℚ)⟩).x + lvl.Offset.x,
                  ((s.MapToPoint ⟨(x : ℚ), (i : ℚ)⟩).y + lvl.Offset.y) -
                    (img.height - (lvl.TileHeight : ℚ))⟩,
        Image := some img } := by
  have hidx : (((m + 1 : ℕ) : ℤ) - 1) = (m : ℤ) := by push_cast; ring
  simp only [makeCell, hm, hidx]
  rw [if_pos (Int.natCast_nonneg m), Int.toNat_natCast, ht]
  simp only [himg, mapToPositionPure, hs]

/-- Witness for C6: an atlas tile of pixel height 48 on a 32-tile orthogonal
grid at cell `(0,0)` with zero offset resolves to screen `y = -16`. -/
theorem C6_bottom_alignment_witness :
    makeCell lvlOrthoSmall [tile48] [1] 0 0 = some ⟨⟨0, -16⟩, some tex48⟩ := by
  have h := C6_bottom_alignment lvlOrthoSmall [tile48] [1] 0 0 _ rfl 0 rfl
    tile48 rfl tex48 rfl
  rw [h]
  norm_num [lvlOrthoSmall, tex48]

/-- C7: a cell whose mapping entry is `0` is blank: the produced tile is the
zero-value tile with no atlas image and no resolved position, for every
tileset and every level (in particular no tileset lookup and no coordinate
conversion is needed — the result does not depend on them). -/
theorem C7_blank_cell (lvl : Level) (ts : List tile) (mapping : List ℕ) (x i : ℕ)
    (h : mapping[x + i * lvl.width.toNat]? = some 0) :
    makeCell lvl ts mapping x i = some { Point := ⟨0, 0⟩, Image := none } := by
  simp only [makeCell, h]
  rw [if_neg (by norm_num)]

/-- Witness for C7: even with an empty tileset and an unsupported orientation
string, a `0` mapping entry yields the blank tile. -/
theorem C7_blank_cell_witness :
    makeCell ⟨"hexagonal", 1, 1, ⟨0, 0⟩, 32, 32⟩ [] [0] 0 0 =
      some { Point := ⟨0, 0⟩, Image := none } :=
  C7_blank_cell ⟨"hexagonal", 1, 1, ⟨0, 0⟩, 32, 32⟩ [] [0] 0 0 rfl

/-- C8 counterexample: with a one-tile tileset and a mapping entry referencing
tile index 1, `createLevelTiles` hits Go's unchecked `ts[tileIdx]` access and
panics (modelled as `none`): no error value and no layer list is produced, so
there is no `TileIndexOutOfRange` error result. -/
theorem C8_out_of_range_counterexample :
    createLevelTiles lvlOrthoSmall [badLayer] [tile48] = none := rfl

/-- C8 (amended): an out-of-range tile id makes `createLevelTiles` abort as a
whole (a Go runtime index-out-of-range panic, modelled as `none`): no layer
list is returned at all, so in particular the failing layer is never partially
populated; the code has no `TileIndexOutOfRange` error value. -/
theorem C8_out_of_range_panics (lvl : Level) (layers : List layer) (ts : List tile)
    (lyr : layer) (hmem : lyr ∈ layers) (x i : ℕ)
    (hx : x < lvl.width.toNat) (hi : i < lvl.height.toNat)
    (m : ℕ) (hm : lyr.TileMapping[x + i * lvl.width.toNat]? = some (m + 1))
    (hlen : ts.length ≤ m) :
    createLevelTiles lvl layers ts = none := by
  have hidx : (((m + 1 : ℕ) : ℤ) - 1) = (m : ℤ) := by push_cast; ring
  have hcell : makeCell lvl ts lyr.TileMapping x i = none := by
    simp only [makeCell, hm, hidx]
    rw [if_pos (Int.natCast_nonneg m), Int.toNat_natCast,
      List.getElem?_eq_none hlen]
  have hmemCell : (none : Option tile) ∈ cellOpts lvl ts lyr.TileMapping := by
    rw [← hcell]
    unfold cellOpts
    exact List.mem_flatMap.2
      ⟨i, List.mem_range.2 hi, List.mem_map.2 ⟨x, List.mem_range.2 hx, rfl⟩⟩
  have hlayer : seqOpt (cellOpts lvl ts lyr.TileMapping) = none := seqOpt_eq_none hmemCell
  unfold createLevelTiles
  apply seqOpt_eq_none
  refine List.mem_map.2 ⟨lyr, hmem, ?_⟩
  rw [hlayer]

/-- Witness for the amended C8: the whole assembly aborts on a 2x1 level whose
second cell references tile index 4 with only one tile in the tileset. -/
theorem C8_out_of_range_panics_witness :
    createLevelTiles lvlWide [badLayerWide] [tile48] = none :=
  C8_out_of_range_panics lvlWide [badLayerWide] [tile48] badLayerWide
    (List.mem_singleton.2 rfl) 1 0 (by decide) (by decide) 4 rfl (by decide)

/-- C9: on a Level whose orientation is none of the three supported strings,
`MapToPosition` and `PositionToMap` fail with the unsupported-orientation
error; the returned state is exactly the input state (strategy slots still
unset, no other field modified), and after correcting the orientation string
to any supported one the same calls succeed. -/
theorem C9_unsupported_orientation (ls : LevelState) (p q : Point)
    (ho1 : ls.lvl.Orientation ≠ "orthogonal")
    (ho2 : ls.lvl.Orientation ≠ "isometric")
    (ho3 : ls.lvl.Orientation ≠ "staggered")
    (hmp : ls.mapToPointF = none) (hpm : ls.pointToMapF = none) :
    MapToPosition ls p =
      (.error ("Level: Unsupported orientation " ++ ls.lvl.Orientation), ls) ∧
    PositionToMap ls q =
      (.error ("Level: Unsupported orientation " ++ ls.lvl.Orientation), ls) ∧
    (∀ o, o = "orthogonal" ∨ o = "isometric" ∨ o = "staggered" →
      ∃ r, (MapToPosition { ls with lvl := { ls.lvl with Orientation := o } } p).1 = .ok r) ∧
    (∀ o, o = "orthogonal" ∨ o = "isometric" ∨ o = "staggered" →
      ∃ r, (PositionToMap { ls with lvl := { ls.lvl with Orientation := o } } q).1 = .ok r) := by
  have herr : setupOrientation ls.lvl =
      .error ("Level: Unsupported orientation " ++ ls.lvl.Orientation) := by
    unfold setupOrientation
    rw [if_neg ho1, if_neg ho2, if_neg ho3]
  have hsup : ∀ o, o = "orthogonal" ∨ o = "isometric" ∨ o = "staggered" →
      ∃ s, setupOrientation { ls.lvl with Orientation := o } = .ok s := by
    rintro o (h | h | h) <;> subst h <;> simp [setupOrientation]
  refine ⟨?_, ?_, ?_, ?_⟩
  · simp only [MapToPosition, hmp, herr]
  · simp only [PositionToMap, hpm, herr]
  · intro o hosup
    obtain ⟨s, hs⟩ := hsup o hosup
    exact ⟨_, by rw [MapToPosition_ok { ls with lvl := { ls.lvl with Orientation := o } }
      p s hmp hs]⟩
  · intro o hosup
    obtain ⟨s, hs⟩ := hsup o hosup
    exact ⟨_, by rw [PositionToMap_ok { ls with lvl := { ls.lvl with Orientation := o } }
      q s hpm hs]⟩

/-- Witness for C9: on `lsHex` both conversions fail with the
unsupported-orientation error and leave the slots unset; after correcting the
orientation to "orthogonal" the call succeeds. -/
theorem C9_unsupported_orientation_witness :
    (MapToPosition lsHex ⟨1, 2⟩).1 = .error "Level: Unsupported orientation hexagonal" ∧
    (MapToPosition lsHex ⟨1, 2⟩).2 = lsHex ∧
    (PositionToMap lsHex ⟨1, 2⟩).2.pointToMapF = none ∧
    ((MapToPosition ⟨⟨"orthogonal", 1, 1, ⟨0, 0⟩, 32, 32⟩, none, none, none⟩ ⟨1, 2⟩).1).isOk
      = true := by
  obtain ⟨h1, h2, h3, h4⟩ := C9_unsupported_orientation lsHex ⟨1, 2⟩ ⟨1, 2⟩
    (by decide) (by decide) (by decide) rfl rfl
  refine ⟨?_, ?_, ?_, ?_⟩
  · rw [h1]
    rfl
  · rw [h1]
  · rw [h2]
    rfl
  · obtain ⟨r, hr⟩ := h3 "orthogonal" (Or.inl rfl)
    have hstate : (⟨⟨"orthogonal", 1, 1, ⟨0, 0⟩, 32, 32⟩, none, none, none⟩ : LevelState) =
        { lsHex with lvl := { lsHex.lvl with Orientation := "orthogonal" } } := rfl
    rw [hstate, hr]
    rfl

/-- C10: a produced `TileLayer` holds exactly `level.width * level.height`
tiles in row-major order — the tile for cell `(x, i)` sits at index
`x + i*width` and equals the per-cell loop result — with mapping-entry-0 cells
still occupying their slot as a blank tile; the grid is the LEVEL's cell
counts, independent of the layer's declared `Width`/`Height`. -/
theorem C10_row_major_grid (lvl : Level) (layers : List layer) (ts : List tile)
    (tls : List TileLayer) (h : createLevelTiles lvl layers ts = some tls)
    (j : ℕ) (lyr : layer) (tl : TileLayer)
    (hj : layers[j]? = some lyr) (hjt : tls[j]? = some tl) :
    tl.Tiles.length = lvl.width.toNat * lvl.height.toNat ∧
    (∀ x i : ℕ, x < lvl.width.toNat → i < lvl.height.toNat →
      tl.Tiles[x + i * lvl.width.toNat]? = makeCell lvl ts lyr.TileMapping x i) ∧
    (∀ x i : ℕ, x < lvl.width.toNat → i < lvl.height.toNat →
      lyr.TileMapping[x + i * lvl.width.toNat]? = some 0 →
      tl.Tiles[x + i * lvl.width.toNat]? = some { Point := ⟨0, 0⟩, Image := none }) := by
  unfold createLevelTiles at h
  obtain ⟨hlen, hget⟩ := seqOpt_some_get h
  have hj2 := hget j
  rw [List.getElem?_map, hj, hjt, Option.map_some', Option.map_some'] at hj2
  simp only [Option.some.injEq] at hj2
  cases hcells : seqOpt (cellOpts lvl ts lyr.TileMapping) with
  | none => rw [hcells] at hj2; cases hj2
  | some tilemap =>
      rw [hcells] at hj2
      simp only [Option.some.injEq] at hj2
      have htiles : tl.Tiles = tilemap := by rw [← hj2]
      obtain ⟨hclen, hcget⟩ := seqOpt_some_get hcells
      have key : ∀ x i : ℕ, x < lvl.width.toNat → i < lvl.height.toNat →
          tl.Tiles[x + i * lvl.width.toNat]? = makeCell lvl ts lyr.TileMapping x i := by
        intro x i hx hi
        have hcg := hcget (x + i * lvl.width.toNat)
        rw [cellOpts_get lvl ts lyr.TileMapping x i hx hi] at hcg
        cases hmt : tilemap[x + i * lvl.width.toNat]? with
        | none => rw [hmt] at hcg; cases hcg
        | some t =>
            rw [hmt, Option.map_some'] at hcg
            simp only [Option.some.injEq] at hcg
            rw [htiles, hmt, hcg]
      refine ⟨?_, key, fun x i hx hi h0 => ?_⟩
      · rw [htiles, hclen, cellOpts_length]
      · rw [key x i hx hi]
        simp only [makeCell, h0]
        rw [if_neg (by norm_num)]

/-- Witness for C10 on the 2x1 demonstration level: the produced layer has
`2 * 1` tiles (not 99x99), the blank second slot is present, and the slot at
row-major index `1 + 0·2` equals the per-cell loop result. -/
theorem C10_row_major_grid_witness :
    createLevelTiles lvlDemo [demoLayer] [tile48] = some [demoTL] ∧
    demoTL.Tiles.length = lvlDemo.width.toNat * lvlDemo.height.toNat ∧
    demoTL.Tiles[1 + 0 * lvlDemo.width.toNat]? =
      makeCell lvlDemo [tile48] demoLayer.TileMapping 1 0 := by
  have hc0 : makeCell lvlDemo [tile48] demoLayer.TileMapping 0 0 =
      some ⟨⟨0, -16⟩, some tex48⟩ := by
    simp only [makeCell, demoLayer]
    rw [show ((0 : ℕ) + 0 * lvlDemo.width.toNat) = 0 from by decide]
    simp only [List.getElem?_cons_zero]
    rw [if_pos (by norm_num), show (((1 : ℕ) : ℤ) - 1).toNat = 0 from by decide]
    simp only [List.getElem?_cons_zero, tile48]
    simp [mapToPositionPure, setupOrientation, lvlDemo, tex48]
    norm_num
  have hc1 : makeCell lvlDemo [tile48] demoLayer.TileMapping 1 0 =
      some ⟨⟨0, 0⟩, none⟩ := by
    simp only [makeCell, demoLayer]
    rw [show ((1 : ℕ) + 0 * lvlDemo.width.toNat) = 1 from by decide]
    simp only [List.getElem?_cons_succ, List.getElem?_cons_zero]
    rw [if_neg (by norm_num)]
  have hcreate : createLevelTiles lvlDemo [demoLayer] [tile48] = some [demoTL] := by
    have hcells : cellOpts lvlDemo [tile48] demoLayer.TileMapping =
        [makeCell lvlDemo [tile48] demoLayer.TileMapping 0 0,
         makeCell lvlDemo [tile48] demoLayer.TileMapping 1 0] := by
      unfold cellOpts
      rw [show lvlDemo.height.toNat = 1 from by decide,
        show lvlDemo.width.toNat = 2 from by decide]
      simp [List.range_succ]
    unfold createLevelTiles
    rw [List.map_cons, List.map_nil, hcells, hc0, hc1]
    rfl
  have h := C10_row_major_grid lvlDemo [demoLayer] [tile48] [demoTL] hcreate 0
    demoLayer demoTL rfl rfl
  exact ⟨hcreate, h.1, h.2.1 1 0 (by decide) (by decide)⟩

end Engo

